import Mathlib

/-!
Verification of the `mbcj-oauth-sv` authentication/authorization library.

The development shallowly embeds the two core source modules:

* `src/middleware.js` — the Authorization Gate: `extraerDatosJWT` (the wrapper
  around the signature verifier), `validarUsuario` (token/bypass/account
  resolution) and `validarUsuarioMW` (the Express guard factory).
* `src/oauthRouter.js` — the identity reconciler `validarUsuario`, the local
  lookup `obtenerDatosUsuario`, and the `POST /token` handler.

Asynchronous promise chains are embedded as sequential functions; the local
user store (a Sequelize model) is embedded as a list of rows with
`findOne`-by-`documento` being the first matching row, and `update` replacing
that row.  JavaScript `toUpperCase` is embedded as a character-wise upper-case
map, and JavaScript string `slice`/`startsWith` as the corresponding
character-list operations.
-/

/-- JavaScript `String.prototype.toUpperCase`, character-wise. -/
def upperJS (s : String) : String := String.mk (s.data.map Char.toUpper)

/-- JavaScript `String.prototype.slice(n)` (drop the first `n` characters). -/
def sliceJS (s : String) (n : Nat) : String := String.mk (s.data.drop n)

/-- JavaScript `String.prototype.startsWith`. -/
def startsWithJS (s pre : String) : Bool := s.data.take pre.data.length == pre.data

namespace Middleware

/-- The shape of the identity payload carried in a token's `data` claim and of
the built-in `admin` object (src/middleware.js, the `admin` constant). -/
structure UserData where
  usuario_id : Nat
  user : String
  mail : String
  tipo_usuario_id : Nat
  persona_id : Nat
  area_id : Nat
  documento : String
  nombre : String
deriving DecidableEq

/-- The fixed built-in identity returned by the privileged bypass
(src/middleware.js, `const admin = {...}`). -/
def admin : UserData :=
  { usuario_id := 0, user := "admin", mail := "admin@admin", tipo_usuario_id := 1,
    persona_id := 0, area_id := 0, documento := "00000000", nombre := "ADMIN" }

/-- A successfully decoded JWT payload: `decoded.data` holds the claims. -/
structure Decoded where
  data : UserData
deriving DecidableEq

/-- The error reported by `jwt.verify` to its callback, distinguished the way
`extraerDatosJWT` distinguishes it: by `error.name`. -/
inductive VerifyError where
  | jsonWebTokenError (message : String)
  | tokenExpiredError (expiredAt : String)
  | otherError (message : String)
deriving DecidableEq

/-- The outcome `jwt.verify` passes to its callback: either an error or the
decoded payload. -/
inductive VerifyResult where
  | ok (decoded : Decoded)
  | err (e : VerifyError)
deriving DecidableEq

/-- The standardized error object (src/middleware.js, `crearError`). -/
structure ErrObj where
  status : Nat
  msj : String
deriving DecidableEq

/-- src/middleware.js `crearError(status, msj)`. -/
def crearError (status : Nat) (msj : String) : ErrObj := ⟨status, msj⟩

/-- Resolution/rejection of the promise returned by `extraerDatosJWT`. -/
inductive JwtOut where
  | ok (decoded : Decoded)
  | err (e : ErrObj)
deriving DecidableEq

/-- src/middleware.js `extraerDatosJWT`: wraps the verifier outcome; every
verifier error is mapped to `crearError(403, msj)` where only `msj` depends on
the kind of failure. -/
def extraerDatosJWT : VerifyResult → JwtOut
  | .ok decoded => .ok decoded
  | .err e =>
    let msj :=
      match e with
      | .jsonWebTokenError m => "Error en token: " ++ m
      | .tokenExpiredError a => "Token expirado: " ++ a
      | .otherError m => m
    .err (crearError 403 msj)

/-- The projection of the local `Usuario` row used by the middleware
(`findOne` by `documento`; the row carries `activo` and, for comparison with
the spec's merged identity, its locally stored role and area). -/
structure Usuario where
  id : Nat
  documento : String
  activo : Bool
  tipo_usuario_id : Nat
  area_id : Nat
deriving DecidableEq

/-- `Usuario.findOne({ where: { documento } })`: first row matching the
document number. -/
def findOne (db : List Usuario) (documento : String) : Option Usuario :=
  db.find? (fun u => u.documento == documento)

/-- A resolved authorization decision: the `status` string and `user` payload
with which the promise of `validarUsuario` resolves. -/
structure AuthOk where
  status : String
  user : Option UserData
deriving DecidableEq

/-- Resolution/rejection of the promise returned by `validarUsuario`. -/
inductive AuthResult where
  | resolved (resp : AuthOk)
  | rejected (e : ErrObj)
deriving DecidableEq

/-- The non-bypass arm of `validarUsuario` (src/middleware.js lines 184‑195):
verify the token, look the account up by the claims' `documento` fetching
`['activo']`, and resolve with `{ status: "USUARIO", user: {...decoded.data} }`.
The signature verifier is passed as a function `verify` from the token string
to the callback outcome. -/
def jwtBranch (verify : String → VerifyResult) (db : List Usuario)
    (token : String) : AuthResult :=
  match extraerDatosJWT (verify token) with
  | .err e => .rejected e
  | .ok decoded =>
    match findOne db decoded.data.documento with
    | none => .rejected (crearError 403 "Usuario no encontrado")
    | some usuario =>
      if !usuario.activo then .rejected (crearError 403 "Usuario inactivo")
      else .resolved ⟨"USUARIO", some decoded.data⟩

/-- src/middleware.js `validarUsuario(token, requerido)` (lines 173‑197).
`token` is `none` for a missing header; the JavaScript `!token` guard also
treats the empty string as absent.  `tokenAdmin` is the `TOKEN_ADMIN`
environment variable (`none` when unset). -/
def validarUsuario (tokenAdmin : Option String) (verify : String → VerifyResult)
    (db : List Usuario) (token : Option String) (requerido : Bool) : AuthResult :=
  match token with
  | none =>
    if requerido then .rejected (crearError 401 "Sin autorización: token requerido")
    else .resolved ⟨"SIN TOKEN", none⟩
  | some t =>
    if t = "" then
      if requerido then .rejected (crearError 401 "Sin autorización: token requerido")
      else .resolved ⟨"SIN TOKEN", none⟩
    else if some t = tokenAdmin then .resolved ⟨"SUPERADMIN", some admin⟩
    else jwtBranch verify db t

/-- Token extraction in `validarUsuarioMW` (lines 208‑215): strip a
`Bearer ` marker, otherwise accept the raw header; a missing or empty header
leaves the token `null`. -/
def extractToken : Option String → Option String
  | none => none
  | some h =>
    if h = "" then none
    else if startsWithJS h "Bearer " then some (sliceJS h 7)
    else some h

/-- What the middleware produced by `validarUsuarioMW` does with a request:
either it calls `next()` with `req.user` set, or it responds with an HTTP
status and an error message. -/
inductive MWOutcome where
  | next (user : Option UserData)
  | respond (status : Nat) (error : String)
deriving DecidableEq

/-- src/middleware.js `validarUsuarioMW(tipos_usuario_id, requerido)`
(lines 206‑235) applied to a request with the given `authorization` header. -/
def validarUsuarioMW (tokenAdmin : Option String) (verify : String → VerifyResult)
    (db : List Usuario) (tipos_usuario_id : Option (List Nat)) (requerido : Bool)
    (authHeader : Option String) : MWOutcome :=
  match validarUsuario tokenAdmin verify db (extractToken authHeader) requerido with
  | .resolved resp =>
    match tipos_usuario_id with
    | none => .next resp.user
    | some tipos =>
      match resp.user with
      | some u =>
        if tipos.contains u.tipo_usuario_id then .next resp.user
        else .respond 403 "Sin permiso"
      | none => .respond 403 "Sin permiso"
  | .rejected e => .respond e.status e.msj

/-- Modelled from the spec: the signature verification itself happens inside
the third-party `jsonwebtoken` library (`jwt.verify`), whose implementation is
not part of this repository — src/ only contains its caller
`extraerDatosJWT`.  Per the spec's Verifier contract (§4.1, §8): a
structurally valid token with its signature, algorithm and expiry instant. -/
structure TokenPayload where
  sigValid : Bool
  algES256 : Bool
  exp : Nat
  claims : Decoded
deriving DecidableEq

/-- Modelled from the spec: a presented token string is either unparseable
(`Malformed`) or parses to a `TokenPayload`. -/
inductive TokenStr where
  | malformed
  | parsed (t : TokenPayload)
deriving DecidableEq

/-- Modelled from the spec: `verify(token)` fails with `Malformed` for
unparseable structure; for all tokens whose expiry is in the past it fails
with `Expired(at)` regardless of signature validity (§8); otherwise a bad
signature or a non-ES256 algorithm fails with `InvalidSignature`, and a valid
token yields its claims.  Failure kinds are rendered as the `jsonwebtoken`
error names that `extraerDatosJWT` inspects. -/
def verifyJWT (now : Nat) : TokenStr → VerifyResult
  | .malformed => .err (.jsonWebTokenError "jwt malformed")
  | .parsed t =>
    if t.exp < now then .err (.tokenExpiredError (toString t.exp))
    else if !t.sigValid || !t.algES256 then .err (.jsonWebTokenError "invalid signature")
    else .ok t.claims

end Middleware

namespace OauthRouter

/-- The environment flags read by src/oauthRouter.js: `OAUTH_VALIDADO` and
`OAUTH_REEMPLAZAR_NOMBRE` (each possibly unset). -/
structure RConfig where
  oauth_validado : Option String
  oauth_reemplazar_nombre : Option String
deriving DecidableEq

/-- The JavaScript test `FLAG?.toUpperCase() === "TRUE"` on an optional
environment variable. -/
def optFlagTrue : Option String → Bool
  | none => false
  | some s => upperJS s == "TRUE"

/-- The `persona` record inside the provider's profile data
(src/oauthRouter.js `OAuthUserData`). -/
structure Persona where
  documento : String
  nombre : String
  apellidos : String
  validado : Bool
deriving DecidableEq

/-- The profile data returned by `getDatos` (`OAuthUserData`). -/
structure Datos where
  persona : Persona
deriving DecidableEq

/-- A row of the local `Usuario` model as used by the router
(`id`, `tipo_usuario_id`, `activo`, `nombre`, `ultimo_ingreso`, joined on
`documento`). -/
structure Usuario where
  id : Nat
  tipo_usuario_id : Nat
  activo : Bool
  nombre : String
  ultimo_ingreso : Option Nat
  documento : String
deriving DecidableEq

/-- `Usuario.findOne({ where: { documento } })`: first row matching the
document number. -/
def findOne (db : List Usuario) (documento : String) : Option Usuario :=
  db.find? (fun u => u.documento == documento)

/-- Persisting `usuario.update(...)`: the found instance is replaced in the
store (first row matching the document number). -/
def replaceFirst : List Usuario → String → Usuario → List Usuario
  | [], _, _ => []
  | u :: rest, documento, nuevo =>
    if u.documento == documento then nuevo :: rest
    else u :: replaceFirst rest documento nuevo

/-- The `updates` object built by the router's `validarUsuario`:
`ultimo_ingreso` is always present, `nombre` only when the name must be
replaced. -/
structure Updates where
  ultimo_ingreso : Nat
  nombre : Option String
deriving DecidableEq

/-- Resolution/rejection of the promise returned by the router's
`validarUsuario`; its rejections are plain strings. -/
inductive ReconcileResult where
  | resolved (usuario : Usuario)
  | rejected (error : String)
deriving DecidableEq

/-- The observable outcome of one call to the router's `validarUsuario`:
the promise result, the `update(...)` payload it attempted (if any), and the
state of the local store after the call. -/
structure ROutcome where
  result : ReconcileResult
  attempted : Option Updates
  db : List Usuario
deriving DecidableEq

/-- Applying an `update(...)` payload to a Sequelize instance. -/
def applyUpdates (u : Usuario) (upd : Updates) : Usuario :=
  { u with ultimo_ingreso := some upd.ultimo_ingreso,
           nombre := upd.nombre.getD u.nombre }

/-- src/oauthRouter.js `validarUsuario(datos)` (lines 113‑133), the identity
reconciler: the `OAUTH_VALIDADO` policy gate, then the lookup by
`datos.persona.documento`, the `activo` check, the canonical display name
`"<apellidos>, <nombre>"` upper-cased written only when
`OAUTH_REEMPLAZAR_NOMBRE` is enabled and the name differs, and the
unconditional `ultimo_ingreso` stamp, persisted in one `update` call. -/
def validarUsuario (cfg : RConfig) (now : Nat) (db : List Usuario)
    (datos : Datos) : ROutcome :=
  if optFlagTrue cfg.oauth_validado && !datos.persona.validado then
    ⟨.rejected "Usuario no validado", none, db⟩
  else
    match findOne db datos.persona.documento with
    | none => ⟨.rejected "Usuario no encontrado", none, db⟩
    | some usuario =>
      if !usuario.activo then ⟨.rejected "Usuario inactivo", none, db⟩
      else
        let nuevoNombre := upperJS (datos.persona.apellidos ++ ", " ++ datos.persona.nombre)
        let debeActualizarNombre :=
          optFlagTrue cfg.oauth_reemplazar_nombre && usuario.nombre != nuevoNombre
        let updates : Updates :=
          ⟨now, if debeActualizarNombre then some nuevoNombre else none⟩
        let actualizado := applyUpdates usuario updates
        ⟨.resolved actualizado, some updates,
          replaceFirst db datos.persona.documento actualizado⟩

/-- src/oauthRouter.js `obtenerDatosUsuario(documento, atributos)`
(lines 141‑150): plain lookup, rejecting with the string
`"Usuario local no encontrado"` on a miss. -/
def obtenerDatosUsuario (db : List Usuario) (documento : String) :
    Except String Usuario :=
  match findOne db documento with
  | none => .error "Usuario local no encontrado"
  | some usuario => .ok usuario

end OauthRouter

namespace PostToken

/-- The fragment of JavaScript runtime values the `POST /token` handler
manipulates after the exchange: the pending `Promise` returned by
`extraerDatosJWT` (called without awaiting), `undefined`, and strings. -/
inductive JSVal where
  | undefinedVal
  | promiseVal
  | str (s : String)
deriving DecidableEq, BEq

/-- An error value flowing into the handler's `.catch`: a thrown `TypeError`
(which has a `.message` but no `.status`) or a plain string rejection. -/
inductive ErrVal where
  | typeError (message : String)
  | strErr (e : String)
deriving DecidableEq

/-- JavaScript property read as it occurs in this handler: any property of a
pending `Promise` object reads as `undefined` (a `Promise` has no `data`
own-property), and reading a property of `undefined` throws a `TypeError`. -/
def jsGet (v : JSVal) (p : String) : Except ErrVal JSVal :=
  match v with
  | .undefinedVal =>
    .error (.typeError ("Cannot read properties of undefined (reading \x27" ++ p ++ "\x27)"))
  | .promiseVal => .ok .undefinedVal
  | .str _ => .ok .undefinedVal

/-- What `getToken(codigo)` settles to: the token on an `"ok"` upstream
response, a plain-string rejection when the upstream reports an error status,
or a `formatearErrorAxios` object with an HTTP status. -/
inductive GetTokenOut where
  | ok (token : String)
  | rejectedStr (error : String)
  | axiosError (status : Nat) (message : String)
deriving DecidableEq

/-- `obtenerDatosUsuario` as invoked from the handler, keyed by the JavaScript
value obtained for the document (rows match when the key is the row's
`documento` string). -/
def obtenerDatosUsuarioJS (db : List OauthRouter.Usuario) (documento : JSVal) :
    Except ErrVal OauthRouter.Usuario :=
  match db.find? (fun u => JSVal.str u.documento == documento) with
  | none => .error (.strErr "Usuario local no encontrado")
  | some usuario => .ok usuario

/-- The first `.then` callback of the `POST /token` handler
(src/oauthRouter.js lines 207‑211): it calls `extraerDatosJWT(token)` without
awaiting, so `decoded` is a pending `Promise`; it then reads
`decoded.data.documento` and passes it to `obtenerDatosUsuario`. -/
def thenCallback1 (db : List OauthRouter.Usuario) (_token : String) :
    Except ErrVal OauthRouter.Usuario := do
  let decoded : JSVal := .promiseVal
  let dataVal ← jsGet decoded "data"
  let docVal ← jsGet dataVal "documento"
  obtenerDatosUsuarioJS db docVal

/-- The JSON body of a `POST /token` response. -/
inductive Body where
  | okToken (token : String)
  | err (error : String)
deriving DecidableEq

/-- An HTTP response of the `POST /token` handler. -/
structure Resp where
  status : Nat
  body : Body
deriving DecidableEq

/-- src/oauthRouter.js `router.post('/token')` (lines 201‑223): missing code
is a 400; a failed exchange maps through the `.catch`
(`status = error.status || 500`, `message = error.message || error`); after a
successful exchange the first `.then` callback runs and its outcome is either
the success response carrying `tokenObtenido` or the `.catch` mapping. -/
def postToken (exchange : String → GetTokenOut) (db : List OauthRouter.Usuario)
    (codigo : Option String) : Resp :=
  match codigo with
  | none => ⟨400, .err "El código es requerido"⟩
  | some c =>
    if c = "" then ⟨400, .err "El código es requerido"⟩
    else
      match exchange c with
      | .rejectedStr e => ⟨500, .err e⟩
      | .axiosError s m => ⟨s, .err m⟩
      | .ok token =>
        match thenCallback1 db token with
        | .error (.typeError m) => ⟨500, .err m⟩
        | .error (.strErr e) => ⟨500, .err e⟩
        | .ok _usuario => ⟨200, .okToken token⟩

end PostToken

/-! ## Shared concrete material for witnesses and counterexamples -/

/-- A stub verifier that fails every token; used where the verifier outcome is
irrelevant to the property being exercised. -/
def vstub : String → Middleware.VerifyResult :=
  fun _ => .err (.otherError "stub")

/-! ## C1 — privileged bypass versus the role allow-list -/

/-- C1 counterexample: with the bypass secret `"SECRETO"` presented as the
bearer credential and a non-null allow-list `[3, 4]` that does not contain the
built-in admin identity's role (`tipo_usuario_id = 1`), `validarUsuarioMW`
does not let the request through: it responds `403 "Sin permiso"`, refuting
the claim that the bypass grants access regardless of the allow-list. -/
theorem c1_bypass_denied_by_allowlist :
    Middleware.validarUsuarioMW (some "SECRETO") vstub [] (some [3, 4]) true
      (some "SECRETO") = .respond 403 "Sin permiso" := by
  rfl

/-- C1 (amended): a bearer credential equal to the bypass secret always yields
the `SUPERADMIN` decision with the fixed admin identity, but
`validarUsuarioMW` still applies the role allow-list to that identity: the
request proceeds exactly when the allow-list is null or contains the admin's
role identifier (1); otherwise it is denied with `403 "Sin permiso"`. -/
theorem c1_bypass_subject_to_allowlist (tokenAdmin : String)
    (verify : String → Middleware.VerifyResult) (db : List Middleware.Usuario)
    (tipos : Option (List Nat)) (requerido : Bool) (authHeader : Option String)
    (hdr : Middleware.extractToken authHeader = some tokenAdmin)
    (hne : tokenAdmin ≠ "") :
    Middleware.validarUsuario (some tokenAdmin) verify db (some tokenAdmin) requerido
        = .resolved ⟨"SUPERADMIN", some Middleware.admin⟩
    ∧ Middleware.validarUsuarioMW (some tokenAdmin) verify db tipos requerido authHeader
        = match tipos with
          | none => .next (some Middleware.admin)
          | some l =>
            if l.contains Middleware.admin.tipo_usuario_id then .next (some Middleware.admin)
            else .respond 403 "Sin permiso" := by
  have hval : Middleware.validarUsuario (some tokenAdmin) verify db (some tokenAdmin) requerido
      = .resolved ⟨"SUPERADMIN", some Middleware.admin⟩ := by
    simp [Middleware.validarUsuario, hne]
  refine ⟨hval, ?_⟩
  unfold Middleware.validarUsuarioMW
  rw [hdr, hval]

/-- C1 witness: the amended theorem applied at the secret `"S"`, allow-list
`[1]` (which contains the admin role) — the request proceeds with the admin
identity attached. -/
theorem c1_bypass_subject_to_allowlist_witness :
    Middleware.validarUsuarioMW (some "S") vstub [] (some [1]) true (some "S")
      = .next (some Middleware.admin) :=
  (c1_bypass_subject_to_allowlist "S" vstub [] (some [1]) true (some "S") rfl
    (by decide)).2

/-! ## C3 — the bypass branch is taken exactly on string equality -/

/-- C3: `validarUsuario` resolves with the `SUPERADMIN` decision exactly when
the presented token string equals the configured bypass secret; every
non-empty token different from the secret (prefixes included) skips the
bypass branch and proceeds to the signature-verification branch
(`jwtBranch`). -/
theorem jwtBranch_never_superadmin (verify : String → Middleware.VerifyResult)
    (db : List Middleware.Usuario) (t : String) (u : Option Middleware.UserData) :
    Middleware.jwtBranch verify db t ≠ .resolved ⟨"SUPERADMIN", u⟩ := by
  intro h
  unfold Middleware.jwtBranch at h
  split at h
  · simp at h
  · split at h
    · simp at h
    · split at h
      · simp at h
      · simp at h

/-- C3: `validarUsuario` resolves with the `SUPERADMIN` decision exactly when
the presented token string equals the configured bypass secret; every
non-empty token different from the secret (prefixes included) skips the
bypass branch and proceeds to the signature-verification branch
(`jwtBranch`). -/
theorem c3_superadmin_iff_secret (s : String)
    (verify : String → Middleware.VerifyResult) (db : List Middleware.Usuario)
    (t : String) (requerido : Bool) :
    (Middleware.validarUsuario (some s) verify db (some t) requerido
        = .resolved ⟨"SUPERADMIN", some Middleware.admin⟩ ↔ (t ≠ "" ∧ t = s))
    ∧ (t ≠ "" → t ≠ s →
        Middleware.validarUsuario (some s) verify db (some t) requerido
          = Middleware.jwtBranch verify db t) := by
  have hbranch : ∀ ht : ¬t = "", ∀ hs : ¬t = s,
      Middleware.validarUsuario (some s) verify db (some t) requerido
        = Middleware.jwtBranch verify db t := by
    intro ht hs
    simp only [Middleware.validarUsuario, if_neg ht]
    rw [if_neg (by simpa using hs)]
  refine ⟨⟨?_, ?_⟩, hbranch⟩
  · intro h
    by_cases ht : t = ""
    · subst ht
      by_cases hr : requerido <;>
        simp [Middleware.validarUsuario, hr, Middleware.crearError] at h
    · by_cases hs : t = s
      · exact ⟨ht, hs⟩
      · rw [hbranch ht hs] at h
        exact absurd h (jwtBranch_never_superadmin verify db t (some Middleware.admin))
  · rintro ⟨ht, hs⟩
    subst hs
    simp [Middleware.validarUsuario, ht]

/-- C3 witness: with secret `"SEC"` and the proper prefix `"SE"` presented as
the token, the bypass branch is skipped and the call lands in the
signature-verification branch. -/
theorem c3_superadmin_iff_secret_witness :
    Middleware.validarUsuario (some "SEC") vstub [] (some "SE") true
      = Middleware.jwtBranch vstub [] "SE" :=
  (c3_superadmin_iff_secret "SEC" vstub [] "SE" true).2 (by decide) (by decide)

/-! ## C2 — identity carried by the AUTHENTICATED decision -/

/-- The merged identity described by the spec: the token's claims combined
with the local account's authoritative role identifier (`tipo_usuario_id`)
and the locally stored organizational-area identifier (`area_id`).  Written
from the spec's words, for comparison with what the source returns. -/
def mergedIdentity (claims : Middleware.UserData) (cuenta : Middleware.Usuario) :
    Middleware.UserData :=
  { claims with tipo_usuario_id := cuenta.tipo_usuario_id,
                area_id := cuenta.area_id }

/-- Token claims carrying role 5 and area 0, document `"111"`. -/
def decodedC2 : Middleware.Decoded :=
  ⟨{ usuario_id := 9, user := "user9", mail := "u9@mail", tipo_usuario_id := 5,
     persona_id := 9, area_id := 0, documento := "111", nombre := "USER9" }⟩

/-- A verifier accepting exactly the token string `"T2"` with claims
`decodedC2`. -/
def verifyC2 : String → Middleware.VerifyResult :=
  fun t => if t = "T2" then .ok decodedC2 else .err (.otherError "stub")

/-- The matching local account: active, locally stored role 4 and area 7. -/
def usuarioC2 : Middleware.Usuario :=
  { id := 3, documento := "111", activo := true, tipo_usuario_id := 4, area_id := 7 }

/-- C2 counterexample: for a token that verifies to claims with role 5 while
the matching active local account stores role 4 and area 7, the Gate resolves
`USUARIO` with exactly the token's claims — which differ from the spec's
merged identity — so the role used downstream is the token's, not the local
account's. -/
theorem c2_identity_not_merged :
    Middleware.validarUsuario none verifyC2 [usuarioC2] (some "T2") true
        = .resolved ⟨"USUARIO", some decodedC2.data⟩
    ∧ decodedC2.data ≠ mergedIdentity decodedC2.data usuarioC2
    ∧ decodedC2.data.tipo_usuario_id = 5 ∧ usuarioC2.tipo_usuario_id = 4 := by
  refine ⟨rfl, by decide, rfl, rfl⟩

/-- C2 (amended): for every token that passes signature verification and
whose claims' document matches an active local account, the `AUTHENTICATED`
(`USUARIO`) result carries exactly the token's claims (`{...decoded.data}`,
no local field merged — the lookup fetches only `activo`), and the role the
middleware's allow-list decision uses is the `tipo_usuario_id` embedded in
the token. -/
theorem c2_authenticated_carries_token_claims (tokenAdmin : Option String)
    (verify : String → Middleware.VerifyResult) (db : List Middleware.Usuario)
    (t : String) (requerido : Bool) (tipos : List Nat)
    (authHeader : Option String) (decoded : Middleware.Decoded)
    (u : Middleware.Usuario)
    (hdr : Middleware.extractToken authHeader = some t)
    (hne : t ≠ "") (hadm : some t ≠ tokenAdmin)
    (hver : verify t = .ok decoded)
    (hfind : Middleware.findOne db decoded.data.documento = some u)
    (hact : u.activo = true) :
    Middleware.validarUsuario tokenAdmin verify db (some t) requerido
        = .resolved ⟨"USUARIO", some decoded.data⟩
    ∧ Middleware.validarUsuarioMW tokenAdmin verify db (some tipos) requerido authHeader
        = (if tipos.contains decoded.data.tipo_usuario_id
           then .next (some decoded.data) else .respond 403 "Sin permiso") := by
  have hval : Middleware.validarUsuario tokenAdmin verify db (some t) requerido
      = .resolved ⟨"USUARIO", some decoded.data⟩ := by
    simp only [Middleware.validarUsuario, if_neg hne, if_neg hadm]
    unfold Middleware.jwtBranch
    rw [hver]
    simp only [Middleware.extraerDatosJWT]
    rw [hfind]
    simp [hact]
  refine ⟨hval, ?_⟩
  unfold Middleware.validarUsuarioMW
  rw [hdr, hval]

/-- C2 witness: the amended theorem applied at the concrete token `"T2"`,
claims `decodedC2` (role 5) and account `usuarioC2`, with allow-list `[5]`:
the middleware passes the request through because the token's role 5 is
allowed, attaching the raw claims. -/
theorem c2_authenticated_carries_token_claims_witness :
    Middleware.validarUsuario none verifyC2 [usuarioC2] (some "T2") true
        = .resolved ⟨"USUARIO", some decodedC2.data⟩
    ∧ Middleware.validarUsuarioMW none verifyC2 [usuarioC2] (some [5]) true
        (some "T2")
        = .next (some decodedC2.data) :=
  c2_authenticated_carries_token_claims none verifyC2 [usuarioC2] "T2" true [5]
    (some "T2") decodedC2 usuarioC2 rfl (by decide) (by decide) rfl rfl rfl

/-! ## C6 — verifier failures collapse to 403 -/

/-- Helper: the middleware forwards a `403` rejection of `extraerDatosJWT`
verbatim to the client. -/
theorem mw_forwards_jwt_error (tokenAdmin : Option String)
    (verify : String → Middleware.VerifyResult) (db : List Middleware.Usuario)
    (tipos : Option (List Nat)) (requerido : Bool) (authHeader : Option String)
    (t : String) (msj : String)
    (hdr : Middleware.extractToken authHeader = some t)
    (hne : t ≠ "") (hadm : some t ≠ tokenAdmin)
    (hjwt : Middleware.extraerDatosJWT (verify t) = .err ⟨403, msj⟩) :
    Middleware.validarUsuarioMW tokenAdmin verify db tipos requerido authHeader
      = .respond 403 msj := by
  unfold Middleware.validarUsuarioMW
  rw [hdr]
  simp only [Middleware.validarUsuario, if_neg hne, if_neg hadm]
  unfold Middleware.jwtBranch
  rw [hjwt]

/-- C6: for any token reaching the verification branch (present, not the
bypass secret), every verifier failure — malformed token, bad signature,
expiry, or any other cause — is mapped by `extraerDatosJWT` to status `403`,
and the middleware responds with that `403`; the failure cause influences
only the message. -/
theorem c6_verifier_failures_are_403 (tokenAdmin : Option String)
    (verify : String → Middleware.VerifyResult) (db : List Middleware.Usuario)
    (tipos : Option (List Nat)) (requerido : Bool) (authHeader : Option String)
    (t : String) (e : Middleware.VerifyError)
    (hdr : Middleware.extractToken authHeader = some t)
    (hne : t ≠ "") (hadm : some t ≠ tokenAdmin)
    (hver : verify t = .err e) :
    ∃ msj, Middleware.extraerDatosJWT (.err e) = .err ⟨403, msj⟩
      ∧ Middleware.validarUsuarioMW tokenAdmin verify db tipos requerido authHeader
          = .respond 403 msj := by
  cases e with
  | jsonWebTokenError m =>
    exact ⟨"Error en token: " ++ m, rfl,
      mw_forwards_jwt_error tokenAdmin verify db tipos requerido authHeader t _
        hdr hne hadm (by rw [hver]; rfl)⟩
  | tokenExpiredError a =>
    exact ⟨"Token expirado: " ++ a, rfl,
      mw_forwards_jwt_error tokenAdmin verify db tipos requerido authHeader t _
        hdr hne hadm (by rw [hver]; rfl)⟩
  | otherError m =>
    exact ⟨m, rfl,
      mw_forwards_jwt_error tokenAdmin verify db tipos requerido authHeader t _
        hdr hne hadm (by rw [hver]; rfl)⟩

/-- C6 witness: a concrete expired-token failure is surfaced as
`403 "Token expirado: ayer"` through the middleware. -/
theorem c6_verifier_failures_are_403_witness :
    ∃ msj,
      Middleware.extraerDatosJWT (.err (.tokenExpiredError "ayer")) = .err ⟨403, msj⟩
      ∧ Middleware.validarUsuarioMW none
          (fun _ => .err (.tokenExpiredError "ayer")) [] (some [1]) true
          (some "TOK") = .respond 403 msj :=
  c6_verifier_failures_are_403 none (fun _ => .err (.tokenExpiredError "ayer"))
    [] (some [1]) true (some "TOK") "TOK" (.tokenExpiredError "ayer") rfl
    (by decide) (by decide) rfl

/-! ## C7 — expiry dominates signature validity -/

/-- C7: for every parseable token whose expiry instant is in the past,
verification fails through the `TokenExpiredError` branch — the resulting
rejection is status `403` with the message carrying the expiry timestamp —
regardless of whether the token's signature is valid or invalid (`t.sigValid`
is universally quantified and unused). -/
theorem c7_expired_token_fails_expired (now : Nat) (t : Middleware.TokenPayload)
    (hexp : t.exp < now) :
    Middleware.extraerDatosJWT (Middleware.verifyJWT now (.parsed t))
      = .err ⟨403, "Token expirado: " ++ toString t.exp⟩ := by
  simp [Middleware.verifyJWT, hexp, Middleware.extraerDatosJWT, Middleware.crearError]

/-- C7 witness: a token that is both expired (`exp = 3 < now = 10`) and
carries an invalid signature still fails through the expiry branch. -/
theorem c7_expired_token_fails_expired_witness :
    Middleware.extraerDatosJWT (Middleware.verifyJWT 10
        (.parsed ⟨false, false, 3, decodedC2⟩))
      = .err ⟨403, "Token expirado: 3"⟩ :=
  c7_expired_token_fails_expired 10 ⟨false, false, 3, decodedC2⟩ (by decide)

/-! ## C4 — missing credential -/

/-- C4: with no credential present (a `null` token or the empty string), the
Gate fails with the client-visible `401` when `requerido = true` and resolves
with the anonymous decision (`status "SIN TOKEN"`, `user = null`) when
`requerido = false`.  The result is the same for every verifier and every
local store (both are quantified and unused), so the decision is made without
contacting the verifier or the identity store; `validarUsuarioMW` forwards
the `401` to the client. -/
theorem c4_missing_credential (tokenAdmin : Option String)
    (verify : String → Middleware.VerifyResult) (db : List Middleware.Usuario)
    (tipos : Option (List Nat)) :
    Middleware.validarUsuario tokenAdmin verify db none true
        = .rejected ⟨401, "Sin autorización: token requerido"⟩
    ∧ Middleware.validarUsuario tokenAdmin verify db (some "") true
        = .rejected ⟨401, "Sin autorización: token requerido"⟩
    ∧ Middleware.validarUsuario tokenAdmin verify db none false
        = .resolved ⟨"SIN TOKEN", none⟩
    ∧ Middleware.validarUsuario tokenAdmin verify db (some "") false
        = .resolved ⟨"SIN TOKEN", none⟩
    ∧ Middleware.validarUsuarioMW tokenAdmin verify db tipos true none
        = .respond 401 "Sin autorización: token requerido" := by
  refine ⟨rfl, by simp [Middleware.validarUsuario, Middleware.crearError], rfl,
    by simp [Middleware.validarUsuario, Middleware.crearError], rfl⟩

/-! ## C5 — reconciliation failure order and absence of mutation -/

/-- C5: the router's `validarUsuario` (the reconciler) evaluates its failure
conditions before any mutation, in the fixed order: the require-verified
policy gate first (for every store state, even one where the account is also
missing or inactive), then the lookup — a miss rejects with
`"Usuario no encontrado"`, an inactive account with `"Usuario inactivo"` —
and in every failure case no `update` is attempted and the store is returned
unchanged. -/
theorem c5_reconcile_checks_before_mutation (cfg : OauthRouter.RConfig)
    (now : Nat) (db : List OauthRouter.Usuario) (datos : OauthRouter.Datos)
    (u : OauthRouter.Usuario) :
    (OauthRouter.optFlagTrue cfg.oauth_validado = true →
      datos.persona.validado = false →
      OauthRouter.validarUsuario cfg now db datos
        = ⟨.rejected "Usuario no validado", none, db⟩)
    ∧ ((OauthRouter.optFlagTrue cfg.oauth_validado && !datos.persona.validado) = false →
        OauthRouter.findOne db datos.persona.documento = none →
        OauthRouter.validarUsuario cfg now db datos
          = ⟨.rejected "Usuario no encontrado", none, db⟩)
    ∧ ((OauthRouter.optFlagTrue cfg.oauth_validado && !datos.persona.validado) = false →
        OauthRouter.findOne db datos.persona.documento = some u →
        u.activo = false →
        OauthRouter.validarUsuario cfg now db datos
          = ⟨.rejected "Usuario inactivo", none, db⟩) := by
  refine ⟨?_, ?_, ?_⟩
  · intro hflag hval
    unfold OauthRouter.validarUsuario
    simp [hflag, hval]
  · intro hgate hmiss
    unfold OauthRouter.validarUsuario
    simp [hgate, hmiss]
  · intro hgate hfind hact
    unfold OauthRouter.validarUsuario
    simp [hgate, hfind, hact]

/-- Reconciler configuration with both policies enabled. -/
def cfgOn : OauthRouter.RConfig := ⟨some "true", some "true"⟩

/-- Reconciler configuration with both policies disabled (variables unset). -/
def cfgOff : OauthRouter.RConfig := ⟨none, none⟩

/-- A profile whose person is not identity-verified. -/
def datosNV : OauthRouter.Datos := ⟨⟨"222", "Ana", "Gomez", false⟩⟩

/-- The same profile with the verified flag set. -/
def datosOK : OauthRouter.Datos := ⟨⟨"222", "Ana", "Gomez", true⟩⟩

/-- An inactive local account for document `"222"`. -/
def rowInactive : OauthRouter.Usuario := ⟨2, 4, false, "GOMEZ, ANA", none, "222"⟩

/-- C5 witness: the three failure cases at concrete inputs — unverified
profile (policy enabled), missing account, inactive account — each leaving
the store untouched. -/
theorem c5_reconcile_checks_before_mutation_witness :
    OauthRouter.validarUsuario cfgOn 7 [rowInactive] datosNV
        = ⟨.rejected "Usuario no validado", none, [rowInactive]⟩
    ∧ OauthRouter.validarUsuario cfgOff 7 [] datosOK
        = ⟨.rejected "Usuario no encontrado", none, []⟩
    ∧ OauthRouter.validarUsuario cfgOff 7 [rowInactive] datosOK
        = ⟨.rejected "Usuario inactivo", none, [rowInactive]⟩ :=
  ⟨(c5_reconcile_checks_before_mutation cfgOn 7 [rowInactive] datosNV rowInactive).1
      (by decide) rfl,
   (c5_reconcile_checks_before_mutation cfgOff 7 [] datosOK rowInactive).2.1
      (by decide) rfl,
   (c5_reconcile_checks_before_mutation cfgOff 7 [rowInactive] datosOK rowInactive).2.2
      (by decide) rfl rfl⟩

/-! ## C8 — display-name computation and idempotent resync -/

/-- Helper: after replacing the first row matching `doc` by a row that itself
matches `doc`, the lookup finds the replacement. -/
theorem findOne_replaceFirst (db : List OauthRouter.Usuario) (doc : String)
    (nuevo u : OauthRouter.Usuario)
    (hfind : OauthRouter.findOne db doc = some u)
    (hdoc : (nuevo.documento == doc) = true) :
    OauthRouter.findOne (OauthRouter.replaceFirst db doc nuevo) doc = some nuevo := by
  induction db with
  | nil => simp [OauthRouter.findOne] at hfind
  | cons hd rest ih =>
    by_cases hh : (hd.documento == doc) = true
    · simp [OauthRouter.replaceFirst, hh, OauthRouter.findOne, hdoc]
    · have hfind2 : OauthRouter.findOne rest doc = some u := by
        simpa [OauthRouter.findOne, List.find?, hh] using hfind
      have ih2 := ih hfind2
      simp only [OauthRouter.replaceFirst, if_neg hh]
      simpa [OauthRouter.findOne, List.find?, hh] using ih2

/-- Helper: the shape of a successful reconciliation — the resolved row, the
attempted update and the new store, for any abbreviation `nn` of the
canonical name and `debe` of the replace-name condition. -/
theorem reconcile_success_eq (cfg : OauthRouter.RConfig) (now : Nat)
    (db : List OauthRouter.Usuario) (datos : OauthRouter.Datos)
    (u : OauthRouter.Usuario) (nn : String) (debe : Bool)
    (hgate : (OauthRouter.optFlagTrue cfg.oauth_validado && !datos.persona.validado) = false)
    (hfind : OauthRouter.findOne db datos.persona.documento = some u)
    (hact : u.activo = true)
    (hnn : nn = upperJS (datos.persona.apellidos ++ ", " ++ datos.persona.nombre))
    (hdebe : debe = (OauthRouter.optFlagTrue cfg.oauth_reemplazar_nombre && u.nombre != nn)) :
    OauthRouter.validarUsuario cfg now db datos =
      ⟨.resolved (OauthRouter.applyUpdates u ⟨now, if debe then some nn else none⟩),
       some ⟨now, if debe then some nn else none⟩,
       OauthRouter.replaceFirst db datos.persona.documento
         (OauthRouter.applyUpdates u ⟨now, if debe then some nn else none⟩)⟩ := by
  subst hnn
  subst hdebe
  unfold OauthRouter.validarUsuario
  simp [hgate, hfind, hact]

/-- C8: on a successful reconciliation the attempted update writes
`ultimo_ingreso` always and the canonical display name
`upper("<apellidos>, <nombre>")` exactly when the sync policy is enabled and
it differs from the stored name; running the reconciler again with the same
profile attempts no name write (`attempted = ⟨t2, none⟩`), stamps
`ultimo_ingreso` on both calls, and leaves the stored display name as the
first call left it. -/
theorem c8_display_name_sync_idempotent (cfg : OauthRouter.RConfig)
    (t1 t2 : Nat) (db : List OauthRouter.Usuario) (datos : OauthRouter.Datos)
    (u : OauthRouter.Usuario)
    (hgate : (OauthRouter.optFlagTrue cfg.oauth_validado && !datos.persona.validado) = false)
    (hfind : OauthRouter.findOne db datos.persona.documento = some u)
    (hact : u.activo = true) :
    ((OauthRouter.validarUsuario cfg t1 db datos).attempted
        = some ⟨t1,
            if OauthRouter.optFlagTrue cfg.oauth_reemplazar_nombre
                && u.nombre != upperJS (datos.persona.apellidos ++ ", " ++ datos.persona.nombre)
            then some (upperJS (datos.persona.apellidos ++ ", " ++ datos.persona.nombre))
            else none⟩)
    ∧ ((OauthRouter.validarUsuario cfg t2
          (OauthRouter.validarUsuario cfg t1 db datos).db datos).attempted
        = some ⟨t2, none⟩)
    ∧ ((OauthRouter.findOne (OauthRouter.validarUsuario cfg t1 db datos).db
          datos.persona.documento).map (fun x => x.ultimo_ingreso) = some (some t1))
    ∧ ((OauthRouter.findOne (OauthRouter.validarUsuario cfg t2
          (OauthRouter.validarUsuario cfg t1 db datos).db datos).db
          datos.persona.documento).map (fun x => x.ultimo_ingreso) = some (some t2))
    ∧ ((OauthRouter.findOne (OauthRouter.validarUsuario cfg t2
          (OauthRouter.validarUsuario cfg t1 db datos).db datos).db
          datos.persona.documento).map (fun x => x.nombre)
        = (OauthRouter.findOne (OauthRouter.validarUsuario cfg t1 db datos).db
            datos.persona.documento).map (fun x => x.nombre)) := by
  have hdocu : (u.documento == datos.persona.documento) = true := by
    have h2 := hfind
    unfold OauthRouter.findOne at h2
    simpa using List.find?_some h2
  generalize hnngen : upperJS (datos.persona.apellidos ++ ", " ++ datos.persona.nombre) = nn
  have e1 := reconcile_success_eq cfg t1 db datos u nn
    (OauthRouter.optFlagTrue cfg.oauth_reemplazar_nombre && u.nombre != nn)
    hgate hfind hact hnngen.symm rfl
  have hdocu1 : ((OauthRouter.applyUpdates u
      ⟨t1, if OauthRouter.optFlagTrue cfg.oauth_reemplazar_nombre && u.nombre != nn
           then some nn else none⟩).documento == datos.persona.documento) = true := hdocu
  have hfind1 := findOne_replaceFirst db datos.persona.documento _ u hfind hdocu1
  have hact1 : (OauthRouter.applyUpdates u
      ⟨t1, if OauthRouter.optFlagTrue cfg.oauth_reemplazar_nombre && u.nombre != nn
           then some nn else none⟩).activo = true := hact
  have hnombre1 : (OauthRouter.applyUpdates u
      ⟨t1, if OauthRouter.optFlagTrue cfg.oauth_reemplazar_nombre && u.nombre != nn
           then some nn else none⟩).nombre
      = if OauthRouter.optFlagTrue cfg.oauth_reemplazar_nombre && u.nombre != nn
        then nn else u.nombre := by
    cases hb : (OauthRouter.optFlagTrue cfg.oauth_reemplazar_nombre && u.nombre != nn) <;>
      simp [OauthRouter.applyUpdates, hb]
  have hd2 : (OauthRouter.optFlagTrue cfg.oauth_reemplazar_nombre
      && (OauthRouter.applyUpdates u
        ⟨t1, if OauthRouter.optFlagTrue cfg.oauth_reemplazar_nombre && u.nombre != nn
             then some nn else none⟩).nombre != nn) = false := by
    rw [hnombre1]
    cases hf : OauthRouter.optFlagTrue cfg.oauth_reemplazar_nombre with
    | false => rfl
    | true =>
      cases hb : (u.nombre != nn) with
      | false => simp [hf, hb]
      | true => simp [hf, hb]
  have e2 := reconcile_success_eq cfg t2
    (OauthRouter.replaceFirst db datos.persona.documento
      (OauthRouter.applyUpdates u
        ⟨t1, if OauthRouter.optFlagTrue cfg.oauth_reemplazar_nombre && u.nombre != nn
             then some nn else none⟩))
    datos
    (OauthRouter.applyUpdates u
      ⟨t1, if OauthRouter.optFlagTrue cfg.oauth_reemplazar_nombre && u.nombre != nn
           then some nn else none⟩)
    nn false hgate hfind1 hact1 hnngen.symm hd2.symm
  have hdocu2 : ((OauthRouter.applyUpdates
      (OauthRouter.applyUpdates u
        ⟨t1, if OauthRouter.optFlagTrue cfg.oauth_reemplazar_nombre && u.nombre != nn
             then some nn else none⟩)
      ⟨t2, if false then some nn else none⟩).documento
        == datos.persona.documento) = true := hdocu
  have hfind2 := findOne_replaceFirst _ datos.persona.documento _ _ hfind1 hdocu2
  refine ⟨by rw [e1], ?_, ?_, ?_, ?_⟩
  · simp only [e1]
    rw [e2]
    rfl
  · simp only [e1]
    rw [hfind1]
    simp [OauthRouter.applyUpdates]
  · simp only [e1, e2]
    rw [hfind2]
    simp [OauthRouter.applyUpdates]
  · simp only [e1, e2]
    rw [hfind1, hfind2]
    simp [OauthRouter.applyUpdates]

/-- Reconciler configuration for the C8 witness: verified-identity policy
off, display-name sync on. -/
def cfg8 : OauthRouter.RConfig := ⟨none, some "true"⟩

/-- Profile for the C8 witness: document `"333"`, given name Juan, family
name Perez. -/
def datos8 : OauthRouter.Datos := ⟨⟨"333", "Juan", "Perez", true⟩⟩

/-- Active local account for the C8 witness with a stale display name. -/
def u8 : OauthRouter.Usuario := ⟨5, 4, true, "VIEJO", none, "333"⟩

/-- C8 witness: at the concrete account `u8` the first reconciliation writes
`nombre := "PEREZ, JUAN"` and `ultimo_ingreso := 100`, and the second
reconciliation writes only `ultimo_ingreso := 200`, leaving the name as the
first call set it. -/
theorem c8_display_name_sync_idempotent_witness :
    ((OauthRouter.validarUsuario cfg8 100 [u8] datos8).attempted
        = some ⟨100, some "PEREZ, JUAN"⟩)
    ∧ ((OauthRouter.validarUsuario cfg8 200
          (OauthRouter.validarUsuario cfg8 100 [u8] datos8).db datos8).attempted
        = some ⟨200, none⟩)
    ∧ ((OauthRouter.findOne (OauthRouter.validarUsuario cfg8 100 [u8] datos8).db
          datos8.persona.documento).map (fun x => x.ultimo_ingreso) = some (some 100))
    ∧ ((OauthRouter.findOne (OauthRouter.validarUsuario cfg8 200
          (OauthRouter.validarUsuario cfg8 100 [u8] datos8).db datos8).db
          datos8.persona.documento).map (fun x => x.ultimo_ingreso) = some (some 200))
    ∧ ((OauthRouter.findOne (OauthRouter.validarUsuario cfg8 200
          (OauthRouter.validarUsuario cfg8 100 [u8] datos8).db datos8).db
          datos8.persona.documento).map (fun x => x.nombre)
        = (OauthRouter.findOne (OauthRouter.validarUsuario cfg8 100 [u8] datos8).db
            datos8.persona.documento).map (fun x => x.nombre)) :=
  c8_display_name_sync_idempotent cfg8 100 200 [u8] datos8 u8 rfl rfl rfl

/-! ## C10 — POST /token never delivers the token -/

/-- C10: once the code exchange succeeds, the handler synchronously reads
`.data` on the promise returned by `extraerDatosJWT` (never awaited), so the
subsequent `.documento` read throws a `TypeError`: for every request whose
exchange succeeds — regardless of the local store, even one containing a
matching active account — the response is
`500 "Cannot read properties of undefined (reading 'documento')"`, the
local-account lookup is never consulted, and the obtained token is never
delivered. -/
theorem c10_post_token_type_error (exchange : String → PostToken.GetTokenOut)
    (db : List OauthRouter.Usuario) (c token : String)
    (hc : c ≠ "") (hex : exchange c = .ok token) :
    PostToken.postToken exchange db (some c)
        = ⟨500, .err "Cannot read properties of undefined (reading \x27documento\x27)"⟩
    ∧ ∀ t, (PostToken.postToken exchange db (some c)).body ≠ .okToken t := by
  have h : PostToken.postToken exchange db (some c)
      = ⟨500, .err "Cannot read properties of undefined (reading \x27documento\x27)"⟩ := by
    simp only [PostToken.postToken]
    rw [if_neg hc, hex]
    rfl
  refine ⟨h, ?_⟩
  intro t hcontra
  rw [h] at hcontra
  simp at hcontra

/-- The exchange stub for the C10 witness: every code trades for `"TOK"`. -/
def exchange10 : String → PostToken.GetTokenOut := fun _ => .ok "TOK"

/-- An active local account whose document matches the C10 scenario. -/
def u10 : OauthRouter.Usuario := ⟨6, 4, true, "PEREZ, JUAN", none, "123"⟩

/-- C10 witness: with code `"abc123"`, a successful exchange for `"TOK"` and
a store containing a matching active account, the handler still responds
`500` with the `TypeError` message and the token is not delivered. -/
theorem c10_post_token_type_error_witness :
    PostToken.postToken exchange10 [u10] (some "abc123")
        = ⟨500, .err "Cannot read properties of undefined (reading \x27documento\x27)"⟩
    ∧ ∀ t, (PostToken.postToken exchange10 [u10] (some "abc123")).body
        ≠ PostToken.Body.okToken t :=
  c10_post_token_type_error exchange10 [u10] "abc123" "TOK" (by decide) rfl

/-! ## C9 — optional mode with a non-null allow-list -/

/-- C9: when the guard is built with `requerido = false` but a non-null
allow-list, a request with no credential is not passed through anonymously:
the role check is applied to the null anonymous identity and fails, so the
middleware responds `403 "Sin permiso"` for every allow-list and every
verifier/store. -/
theorem c9_optional_mode_with_allowlist_denies_anonymous
    (tokenAdmin : Option String) (verify : String → Middleware.VerifyResult)
    (db : List Middleware.Usuario) (tipos : List Nat) :
    Middleware.validarUsuarioMW tokenAdmin verify db (some tipos) false none
      = .respond 403 "Sin permiso" := by
  rfl
